import Mathlib

/-!
# Verification of the Parallels reconciliation core (`parallels_sdk.c`)

This development is a shallow embedding of the reconciliation engine in
`src/parallels/parallels_sdk.c`: the identity codec, the job/await protocol,
the hardware-inventory extractors, the state mapper, and the load-or-merge
reconciler over the domain-object store.

Conventions of the embedding:
* every fallible SDK getter (`PrlVmCfg_Get*`, `PrlVmDev_Get*`, ...) is modelled
  as an `Option` field of a snapshot record — `none` means the call failed;
  allocation failures (`VIR_ALLOC*`) take the same error exits as the
  adjacent getter failures and are subsumed by those injections;
* `PRL_UINT32` values are `Nat`; the two `<< 10` unit conversions are done in
  32-bit arithmetic exactly as in C, hence the explicit `% 2^32`;
* external enum values are distinct `Nat` constants; the code only compares
  them for equality, so their concrete numeric values are irrelevant;
* libvirt utility functions that are not part of the given sources
  (`virUUIDFormat`, `virUUIDParse`, `virMacAddrParse`, `virBitmapParse`,
  `virIndexToDiskName`, the `virDomainObjList*` store operations) are
  modelled from the specification; each such definition carries a
  `Modelled from the spec:` doc comment.
-/

set_option autoImplicit false

/-! ## External enum constants (Parallels SDK)

The source only ever compares these for equality (switch/if), so any family of
pairwise distinct `Nat` values is a faithful model. -/

abbrev PDT_USE_REAL_DEVICE : Nat := 0
abbrev PDT_USE_IMAGE_FILE : Nat := 1
abbrev PDT_USE_OUTPUT_FILE : Nat := 2
abbrev PDT_USE_SERIAL_PORT_SOCKET_MODE : Nat := 3

abbrev PMS_IDE_DEVICE : Nat := 0
abbrev PMS_SCSI_DEVICE : Nat := 1
abbrev PMS_SATA_DEVICE : Nat := 2

abbrev PNA_ROUTED : Nat := 1

abbrev PRD_DISABLED : Nat := 0
abbrev PRD_AUTO : Nat := 1
abbrev PRD_MANUAL : Nat := 2

abbrev PVT_VM : Nat := 0
abbrev PVT_CT : Nat := 1

abbrev PCM_CPU_MODE_32 : Nat := 0
abbrev PCM_CPU_MODE_64 : Nat := 1

abbrev PAO_VM_START_MANUAL : Nat := 0
abbrev PAO_VM_START_ON_LOAD : Nat := 1

/-- `VIRTUAL_MACHINE_STATE` values (distinct tags; only equality is used). -/
abbrev VMS_STOPPED : Nat := 0
abbrev VMS_MOUNTED : Nat := 1
abbrev VMS_STARTING : Nat := 2
abbrev VMS_COMPACTING : Nat := 3
abbrev VMS_RESETTING : Nat := 4
abbrev VMS_PAUSING : Nat := 5
abbrev VMS_RECONNECTING : Nat := 6
abbrev VMS_RUNNING : Nat := 7
abbrev VMS_PAUSED : Nat := 8
abbrev VMS_SUSPENDED : Nat := 9
abbrev VMS_DELETING_STATE : Nat := 10
abbrev VMS_SUSPENDING_SYNC : Nat := 11
abbrev VMS_STOPPING : Nat := 12
abbrev VMS_SNAPSHOTING : Nat := 13
abbrev VMS_MIGRATING : Nat := 14
abbrev VMS_SUSPENDING : Nat := 15
abbrev VMS_RESTORING : Nat := 16
abbrev VMS_CONTINUING : Nat := 17
abbrev VMS_RESUMING : Nat := 18
abbrev VMS_UNKNOWN : Nat := 19

/-- The `VIRTUAL_MACHINE_STATE` values handled by a `case` label of
`prlsdkConvertDomainState` (everything except the fatal `default`). -/
def knownVmStates : List Nat :=
  [VMS_STOPPED, VMS_MOUNTED, VMS_STARTING, VMS_COMPACTING, VMS_RESETTING,
   VMS_PAUSING, VMS_RECONNECTING, VMS_RUNNING, VMS_PAUSED, VMS_SUSPENDED,
   VMS_DELETING_STATE, VMS_SUSPENDING_SYNC, VMS_STOPPING, VMS_SNAPSHOTING,
   VMS_MIGRATING, VMS_SUSPENDING, VMS_RESTORING, VMS_CONTINUING,
   VMS_RESUMING, VMS_UNKNOWN]

/-! ## Hex / canonical-text helpers (shared by the UUID and MAC codecs) -/

/-- Lower-case hex digit for a value `< 16` (as `virUUIDFormat` emits). -/
def hexChar (n : Nat) : Char :=
  if n < 10 then Char.ofNat (48 + n) else Char.ofNat (87 + n)

/-- Parse one hex digit, upper or lower case. -/
def parseHexChar (c : Char) : Option Nat :=
  if 48 ≤ c.toNat ∧ c.toNat ≤ 57 then some (c.toNat - 48)
  else if 97 ≤ c.toNat ∧ c.toNat ≤ 102 then some (c.toNat - 87)
  else if 65 ≤ c.toNat ∧ c.toNat ≤ 70 then some (c.toNat - 55)
  else none

/-- Two hex digits of a byte, high nibble first. -/
def byteHexChars (b : Nat) : List Char :=
  [hexChar (b / 16), hexChar (b % 16)]

/-- Hex text of a byte sequence. -/
def bytesHex (bs : List Nat) : List Char :=
  (bs.map byteHexChars).flatten

/-- Parse an even-length run of hex digits into bytes. -/
def parseBytes : List Char → Option (List Nat)
  | [] => some []
  | [_] => none
  | c1 :: c2 :: rest => do
      let h ← parseHexChar c1
      let l ← parseHexChar c2
      let bs ← parseBytes rest
      return (16 * h + l) :: bs

/-- Split a character list on a separator (like `strsep`); `n` separators
produce `n + 1` groups. -/
def splitChar (sep : Char) : List Char → List (List Char)
  | [] => [[]]
  | c :: rest =>
    if c = sep then [] :: splitChar sep rest
    else
      match splitChar sep rest with
      | [] => [[c]]
      | g :: gs => (c :: g) :: gs

/-! ## Identity codec -/

/-- Canonical character layout `xxxxxxxx-xxxx-xxxx-xxxx-xxxxxxxxxxxx` of a
16-byte UUID. -/
def virUUIDFormatChars (u : List Nat) : List Char :=
  bytesHex (u.take 4) ++ '-' ::
    (bytesHex ((u.drop 4).take 2) ++ '-' ::
      (bytesHex ((u.drop 6).take 2) ++ '-' ::
        (bytesHex ((u.drop 8).take 2) ++ '-' :: bytesHex (u.drop 10))))

/-- Modelled from the spec: `virUUIDFormat` (libvirt util, not in the given
sources) renders a 128-bit UUID in canonical textual form. -/
def virUUIDFormat (u : List Nat) : String :=
  String.mk (virUUIDFormatChars u)

/-- Hyphen-separated groups of a canonical UUID: exactly five groups of
lengths 8-4-4-4-12, parsed as hex bytes. -/
def virUUIDParseGroups : List (List Char) → Option (List Nat)
  | [g1, g2, g3, g4, g5] =>
    if g1.length = 8 ∧ g2.length = 4 ∧ g3.length = 4 ∧ g4.length = 4 ∧
        g5.length = 12 then
      parseBytes (g1 ++ g2 ++ g3 ++ g4 ++ g5)
    else none
  | _ => none

/-- Modelled from the spec: `virUUIDParse` (libvirt util, not in the given
sources) parses the canonical textual form `8-4-4-4-12` back into 16 bytes and
fails on anything else. -/
def virUUIDParse (s : String) : Option (List Nat) :=
  virUUIDParseGroups (splitChar '-' s.toList)

/-- `prlsdkUUIDFormat`: the wire form wraps the canonical UUID in one brace
character at each end (parallels_sdk.c:281-289). -/
def prlsdkUUIDFormat (u : List Nat) : String :=
  String.mk ('\x7b' :: (virUUIDFormat u).toList ++ ['\x7d'])

/-- `prlsdkUUIDParse` (parallels_sdk.c:310-336): chops the last character
(`tmp[strlen(tmp) - 1] = 0`), skips the first (`tmp + 1`) and hands the rest to
`virUUIDParse`.  Note that the dropped characters are *not* checked to be
braces.  (For the empty string the C code writes before the buffer; that
input is out of the function's domain and modelled as a parse failure.) -/
def prlsdkUUIDParse (s : String) : Option (List Nat) :=
  virUUIDParse (String.mk s.toList.dropLast.tail)

/-! ## Misc utility codecs -/

/-- Bijective base-26 letters of `idx + 1`, `0 ↦ "a"`, `25 ↦ "z"`, `26 ↦ "aa"`.
The first argument is fuel (the value itself suffices). -/
def diskLettersAux : Nat → Nat → List Char
  | 0, _ => []
  | _ + 1, 0 => []
  | fuel + 1, n => diskLettersAux fuel ((n - 1) / 26) ++
      [Char.ofNat (97 + (n - 1) % 26)]

/-- Modelled from the spec: `virIndexToDiskName` (libvirt util, not in the
given sources) derives the logical target name deterministically from the
zero-based device index with the given two-letter prefix, `sd`+`a` for index
0, `sd`+`b` for index 1, ... -/
def virIndexToDiskName (idx : Nat) (pre : String) : String :=
  pre ++ String.mk (diskLettersAux (idx + 1) (idx + 1))

/-- Modelled from the spec: `virMacAddrParse` (libvirt util, not in the given
sources) parses a canonical colon-separated MAC address into its 6 bytes. -/
def virMacAddrParse (s : String) : Option (List Nat) :=
  match splitChar ':' s.toList with
  | gs =>
    if gs.length = 6 ∧ gs.all (fun g => g.length = 2) then
      parseBytes gs.flatten
    else none

/-- Decimal parse of a nonempty digit run. -/
def parseDecimal (cs : List Char) : Option Nat :=
  if cs ≠ [] ∧ cs.all (fun c => 48 ≤ c.toNat ∧ c.toNat ≤ 57) then
    some (cs.foldl (fun acc c => 10 * acc + (c.toNat - 48)) 0)
  else none

/-- Modelled from the spec: `virBitmapParse` (libvirt util, not in the given
sources) parses an external CPU-mask string against the host CPU count,
yielding a bitmap of exactly `bits` bits; an index at or beyond `bits` is an
error.  The external mask is modelled as a comma-separated index list. -/
def virBitmapParse (s : String) (bits : Nat) : Option (List Bool) := do
  let idxs ← (splitChar ',' s.toList).mapM parseDecimal
  if idxs.all (· < bits) then
    some ((List.range bits).map (fun i => idxs.contains i))
  else none

/-! ## Internal domain model (the relevant slice of `virDomainDef`) -/

inductive VirDomainState where
  | nostate | running | paused | shutdown | shutoff
deriving DecidableEq, Repr

inductive StateReason where
  | nostateUnknown
  | shutoffShutdown | shutoffSaved
  | runningBooted | runningRestored | runningUnpaused
  | pausedUser | pausedSnapshot | pausedMigration | pausedSave
  | shutdownUser
deriving DecidableEq, Repr

inductive VirArch where
  | unset | i686 | x8664
deriving DecidableEq, Repr

inductive StorageKind where
  | file | block
deriving DecidableEq, Repr

inductive DiskFormat where
  | ploop
deriving DecidableEq, Repr

inductive DiskBus where
  | ide | scsi | sata
deriving DecidableEq, Repr

inductive LinkState where
  | up | down
deriving DecidableEq, Repr

inductive ChrBacking where
  | file | unix | dev
deriving DecidableEq, Repr

/-- One disk descriptor (`virDomainDiskDef` slice). -/
structure DiskDef where
  stype : StorageKind
  format : Option DiskFormat
  src : String
  bus : DiskBus
  addrTarget : Nat
  dst : String
deriving DecidableEq, Repr

/-- One network-adapter descriptor (`virDomainNetDef` slice); `mac = none`
models the MAC-less routed venet adapter of containers. -/
structure NetDef where
  ifname : String
  mac : Option (List Nat)
  networkName : String
  linkstate : LinkState
deriving DecidableEq, Repr

/-- One serial-port descriptor (`virDomainChrDef` slice). -/
structure ChrDef where
  targetPort : Nat
  backing : ChrBacking
  path : String
deriving DecidableEq, Repr

/-- The single video device (`virDomainVideoDef` slice): VGA, one head. -/
structure VideoDef where
  vram : Nat
  heads : Nat
deriving DecidableEq, Repr

/-- One graphics descriptor (`virDomainGraphicsDef` slice, VNC family). -/
structure GraphicsDef where
  autoport : Bool
  port : Nat
  listens : List String
deriving DecidableEq, Repr

/-- The reconciled definition (`virDomainDef` slice).  `id` is the external
numeric instance id, `-1` when unassigned.  The fixed lifecycle-action fields
(`onReboot` etc.) carry no information and are omitted. -/
structure DomainDef where
  id : Int
  name : String
  uuid : List Nat
  memMaxBalloon : Nat
  memCurBalloon : Nat
  vcpus : Nat
  maxvcpus : Nat
  osType : String
  osInit : Option String
  arch : VirArch
  videos : List VideoDef
  disks : List DiskDef
  nets : List NetDef
  serials : List ChrDef
  graphics : List GraphicsDef
deriving DecidableEq, Repr

/-- `IS_CT(def)`: the container personality is recognised by os type "exe". -/
def IS_CT (d : DomainDef) : Bool :=
  d.osType == "exe"

/-- `PARALLELS_ROUTED_NETWORK_NAME`: the well-known default network name
synthesized for routed adapters. -/
def PARALLELS_ROUTED_NETWORK_NAME : String := "Routed"

/-! ## External snapshot model

One record field per SDK getter the code calls; `none` injects a failure of
that call. -/

/-- Observable fields of one hard-disk sub-handle. -/
structure DiskSnap where
  emulatedType : Option Nat
  friendlyName : Option String
  ifaceType : Option Nat
  stackIndex : Option Nat
  index : Option Nat
deriving DecidableEq, Repr

/-- Observable fields of one network-adapter sub-handle. -/
structure NetSnap where
  index : Option Nat
  hostIfName : Option String
  mac : Option String
  emulatedType : Option Nat
  vnetId : Option String
  isConnected : Option Bool
deriving DecidableEq, Repr

/-- Observable fields of one serial-port sub-handle. -/
structure SerialSnap where
  index : Option Nat
  emulatedType : Option Nat
  friendlyName : Option String
deriving DecidableEq, Repr

/-- One VM snapshot handle: every `PrlVmCfg_*` / state / autostart getter the
loader touches.  The device-count getters are modelled by a success flag plus
the list of per-index fetch outcomes. -/
structure Snapshot where
  name : Option String
  uuidstr : Option String
  ram : Option Nat
  cpuCount : Option Nat
  cpuMask : Option String
  cpuMode : Option Nat
  vmType : Option Nat
  videoRam : Option Nat
  hddCountOk : Bool
  hdds : List (Option DiskSnap)
  netCountOk : Bool
  nets : List (Option NetSnap)
  serialCountOk : Bool
  serials : List (Option SerialSnap)
  vncMode : Option Nat
  vncPort : Option Nat
  vncHost : Option String
  envId : Option Nat
  home : Option String
  vmState : Option Nat
  autostart : Option Nat
  addRefOk : Bool
deriving DecidableEq, Repr

/-- 32-bit `x << 10` mebibyte→kibibyte conversion (`ram` is `PRL_UINT32`, the
shift is computed in 32-bit arithmetic). -/
def MB2KB (x : Nat) : Nat := (x * 1024) % 4294967296

/-! ## Hardware inventory extractors -/

/-- `prlsdkGetDiskInfo` (parallels_sdk.c:451-521): classify the storage
backend from the emulated type, read the source path, map the bus (fatal on
values outside IDE/SCSI/SATA), take the positional address from the stack
index and derive the target name from the device index. -/
def prlsdkDiskBusOf (ifType : Nat) : Option DiskBus :=
  if ifType = PMS_IDE_DEVICE then some DiskBus.ide
  else if ifType = PMS_SCSI_DEVICE then some DiskBus.scsi
  else if ifType = PMS_SATA_DEVICE then some DiskBus.sata
  else none

def prlsdkGetDiskInfo (prldisk : DiskSnap) : Option DiskDef := do
  let et ← prldisk.emulatedType
  let src ← prldisk.friendlyName
  let ifType ← prldisk.ifaceType
  let bus ← prlsdkDiskBusOf ifType
  let pos ← prldisk.stackIndex
  let idx ← prldisk.index
  some { stype := if et = PDT_USE_IMAGE_FILE then .file else .block,
         format := if et = PDT_USE_IMAGE_FILE then some .ploop else none,
         src := src, bus := bus, addrTarget := pos,
         dst := virIndexToDiskName idx "sd" }

/-- Iteration body of `prlsdkAddDomainHardDisksInfo`: fetch each sub-handle
(failure aborts), skip it entirely for containers, otherwise convert and
append. -/
def prlsdkHardDisksLoop : List (Option DiskSnap) → DomainDef → Option DomainDef
  | [], d => some d
  | none :: _, _ => none
  | some h :: rest, d =>
    if IS_CT d then prlsdkHardDisksLoop rest d
    else
      match prlsdkGetDiskInfo h with
      | none => none
      | some disk => prlsdkHardDisksLoop rest { d with disks := d.disks ++ [disk] }

/-- `prlsdkAddDomainHardDisksInfo` (parallels_sdk.c:523-567). -/
def prlsdkAddDomainHardDisksInfo (snap : Snapshot) (d : DomainDef) : Option DomainDef :=
  if snap.hddCountOk then prlsdkHardDisksLoop snap.hdds d else none

/-- `prlsdkGetNetInfo` (parallels_sdk.c:569-647): a container adapter with the
sentinel index `(PRL_UINT32)-1` is the routed venet adapter (no MAC, link
always up, default network name); all other adapters need a parsable MAC and
either the synthesized routed network name or an explicit network id. -/
def prlsdkGetNetInfo (na : NetSnap) (isCt : Bool) : Option NetDef := do
  let idx ← na.index
  let ifn ← na.hostIfName
  if isCt ∧ idx = 4294967295 then
    return { ifname := ifn, mac := none,
             networkName := PARALLELS_ROUTED_NETWORK_NAME,
             linkstate := .up }
  else
    let macstr ← na.mac
    let mac ← virMacAddrParse macstr
    let et ← na.emulatedType
    let nname ←
      if et = PNA_ROUTED then some PARALLELS_ROUTED_NETWORK_NAME
      else na.vnetId
    let conn ← na.isConnected
    return { ifname := ifn, mac := some mac, networkName := nname,
             linkstate := if conn then .up else .down }

/-- Iteration body of `prlsdkAddDomainNetInfo`. -/
def prlsdkNetLoop (isCt : Bool) : List (Option NetSnap) → DomainDef → Option DomainDef
  | [], d => some d
  | none :: _, _ => none
  | some na :: rest, d =>
    match prlsdkGetNetInfo na isCt with
    | none => none
    | some net => prlsdkNetLoop isCt rest { d with nets := d.nets ++ [net] }

/-- `prlsdkAddDomainNetInfo` (parallels_sdk.c:649-683). -/
def prlsdkAddDomainNetInfo (snap : Snapshot) (d : DomainDef) : Option DomainDef :=
  if snap.netCountOk then prlsdkNetLoop (IS_CT d) snap.nets d else none

/-- `prlsdkGetSerialInfo` (parallels_sdk.c:685-736): backing transport from
exactly three known emulated types, fatal otherwise. -/
def prlsdkSerialBackingOf (et : Nat) : Option ChrBacking :=
  if et = PDT_USE_OUTPUT_FILE then some ChrBacking.file
  else if et = PDT_USE_SERIAL_PORT_SOCKET_MODE then some ChrBacking.unix
  else if et = PDT_USE_REAL_DEVICE then some ChrBacking.dev
  else none

def prlsdkGetSerialInfo (sp : SerialSnap) : Option ChrDef := do
  let idx ← sp.index
  let et ← sp.emulatedType
  let fn ← sp.friendlyName
  let bk ← prlsdkSerialBackingOf et
  return { targetPort := idx, backing := bk, path := fn }

/-- Iteration body of `prlsdkAddSerialInfo`. -/
def prlsdkSerialLoop : List (Option SerialSnap) → DomainDef → Option DomainDef
  | [], d => some d
  | none :: _, _ => none
  | some sp :: rest, d =>
    match prlsdkGetSerialInfo sp with
    | none => none
    | some chr => prlsdkSerialLoop rest { d with serials := d.serials ++ [chr] }

/-- `prlsdkAddSerialInfo` (parallels_sdk.c:739-775). -/
def prlsdkAddSerialInfo (snap : Snapshot) (d : DomainDef) : Option DomainDef :=
  if snap.serialCountOk then prlsdkSerialLoop snap.serials d else none

/-- `prlsdkAddDomainVideoInfo` (parallels_sdk.c:417-449): one VGA head, VRAM
converted mebibyte→kibibyte in 32-bit arithmetic. -/
def prlsdkAddDomainVideoInfo (snap : Snapshot) (d : DomainDef) : Option DomainDef := do
  let vr ← snap.videoRam
  return { d with videos := d.videos ++ [{ vram := MB2KB vr, heads := 1 }] }

/-- `prlsdkAddDomainHardware` (parallels_sdk.c:778-799): video only for
non-containers, then disks, adapters, serial ports. -/
def prlsdkAddDomainHardware (snap : Snapshot) (d : DomainDef) : Option DomainDef := do
  let d ← if IS_CT d then some d else prlsdkAddDomainVideoInfo snap d
  let d ← prlsdkAddDomainHardDisksInfo snap d
  let d ← prlsdkAddDomainNetInfo snap d
  prlsdkAddSerialInfo snap d

/-- `prlsdkAddVNCInfo` (parallels_sdk.c:802-856): mode `disabled` contributes
no descriptor at all; otherwise exactly one descriptor with the snapshot's
port, the autoport flag for mode `auto`, and a single listen entry bound to
the snapshot's host address. -/
def prlsdkAddVNCInfo (snap : Snapshot) (d : DomainDef) : Option DomainDef := do
  let mode ← snap.vncMode
  if mode = PRD_DISABLED then
    return d
  else
    let port ← snap.vncPort
    let host ← snap.vncHost
    return { d with graphics := d.graphics ++
               [{ autoport := mode = PRD_AUTO, port := port, listens := [host] }] }

/-- `prlsdkConvertCpuInfo` (parallels_sdk.c:941-987): clamp the vCPU count to
the host logical CPU count; an empty mask yields a fully-set bitmap of host
width, a nonempty one is parsed against the host count.  Returns the updated
definition together with the CPU mask destined for the private data. -/
def prlsdkCpuMaskOf (mask : String) (hostcpus : Nat) : Option (List Bool) :=
  if mask = "" then some (List.replicate hostcpus true)
  else virBitmapParse mask hostcpus

def prlsdkConvertCpuInfo (hostcpus : Nat) (snap : Snapshot) (d : DomainDef) :
    Option (DomainDef × List Bool) := do
  let c ← snap.cpuCount
  let cpuCount := if c > hostcpus then hostcpus else c
  let mask ← snap.cpuMask
  let bm ← prlsdkCpuMaskOf mask hostcpus
  return ({ d with vcpus := cpuCount, maxvcpus := cpuCount }, bm)

/-- `prlsdkConvertCpuMode` (parallels_sdk.c:1021-1046). -/
def prlsdkConvertCpuMode (snap : Snapshot) (d : DomainDef) : Option DomainDef := do
  let m ← snap.cpuMode
  if m = PCM_CPU_MODE_32 then some { d with arch := .i686 }
  else if m = PCM_CPU_MODE_64 then some { d with arch := .x8664 }
  else none

/-- `prlsdkConvertDomainType` (parallels_sdk.c:989-1019). -/
def prlsdkConvertDomainType (snap : Snapshot) (d : DomainDef) : Option DomainDef := do
  let t ← snap.vmType
  if t = PVT_VM then some { d with osType := "hvm" }
  else if t = PVT_CT then
    some { d with osType := "exe", osInit := some "/sbin/init" }
  else none

/-- `prlsdkGetDomainIds` (parallels_sdk.c:338-370): fetch the display name and
parse the wire UUID.  (The C checks a stale `pret` after the second
`PrlVmCfg_GetName` and after `PrlVmCfg_GetUuid`, so those two failures go
undetected there; the model treats each fetch as cleanly failable, which
covers strictly more failure injections.) -/
def prlsdkGetDomainIds (snap : Snapshot) : Option (String × List Nat) := do
  let n ← snap.name
  let us ← snap.uuidstr
  let u ← prlsdkUUIDParse us
  return (n, u)

/-! ## Domain object, private data, and the state mapper -/

/-- Driver-private data (`parallelsDomObj`): external instance id, home path,
CPU mask, and whether a retained reference to the external snapshot handle is
held (`sdkdom`).  `uuid` is the legacy field the loader nulls out. -/
structure PdomData where
  id : Nat
  home : String
  cpumask : List Bool
  sdkdom : Bool
  uuid : Option String
deriving DecidableEq, Repr

/-- The store-resident object (`virDomainObj` slice). -/
structure DomainObj where
  objDef : DomainDef
  st : VirDomainState
  reason : StateReason
  autostart : Bool
  persistent : Bool
  pdom : PdomData
deriving DecidableEq, Repr

/-- `virDomainObjSetState`. -/
def virDomainObjSetState (o : DomainObj) (s : VirDomainState) (r : StateReason) :
    DomainObj :=
  { o with st := s, reason := r }

/-- Assignment `dom->def->id = i`. -/
def setDefId (o : DomainObj) (i : Int) : DomainObj :=
  { o with objDef := { o.objDef with id := i } }

/-- Two's-complement narrowing of a `PRL_UINT32` value to a signed 32-bit
`int`, as the source's `dom->def->id = envId` assignment performs: values at
or above `2^31` wrap, in particular `0xFFFFFFFF` becomes `-1`. -/
def uint32ToInt (n : Nat) : Int :=
  if n % 4294967296 < 2147483648 then ((n % 4294967296 : Nat) : Int)
  else ((n % 4294967296 : Nat) : Int) - 4294967296

/-- `prlsdkConvertDomainState` (parallels_sdk.c:858-939): total on the known
run-state values, fatal (`none`) on anything else.  SHUTOFF-mapped states
force `id = -1`; `VMS_UNKNOWN` maps to NOSTATE and leaves `id` untouched; all
other states assign the external instance id.  `envId` is the `PRL_UINT32`
external id and `def->id` is a signed `int`, so the assignment narrows via
`uint32ToInt` — in particular the external value `0xFFFFFFFF` lands on the
sentinel `-1`. -/
def prlsdkConvertDomainState (domainState : Nat) (envId : Nat) (dom : DomainObj) :
    Option DomainObj :=
  if domainState = VMS_STOPPED ∨ domainState = VMS_MOUNTED then
    some (setDefId (virDomainObjSetState dom .shutoff .shutoffShutdown) (-1))
  else if domainState = VMS_STARTING ∨ domainState = VMS_COMPACTING ∨
      domainState = VMS_RESETTING ∨ domainState = VMS_PAUSING ∨
      domainState = VMS_RECONNECTING ∨ domainState = VMS_RUNNING then
    some (setDefId (virDomainObjSetState dom .running .runningBooted)
      (uint32ToInt envId))
  else if domainState = VMS_PAUSED then
    some (setDefId (virDomainObjSetState dom .paused .pausedUser)
      (uint32ToInt envId))
  else if domainState = VMS_SUSPENDED ∨ domainState = VMS_DELETING_STATE ∨
      domainState = VMS_SUSPENDING_SYNC then
    some (setDefId (virDomainObjSetState dom .shutoff .shutoffSaved) (-1))
  else if domainState = VMS_STOPPING then
    some (setDefId (virDomainObjSetState dom .shutdown .shutdownUser)
      (uint32ToInt envId))
  else if domainState = VMS_SNAPSHOTING then
    some (setDefId (virDomainObjSetState dom .paused .pausedSnapshot)
      (uint32ToInt envId))
  else if domainState = VMS_MIGRATING then
    some (setDefId (virDomainObjSetState dom .paused .pausedMigration)
      (uint32ToInt envId))
  else if domainState = VMS_SUSPENDING then
    some (setDefId (virDomainObjSetState dom .paused .pausedSave)
      (uint32ToInt envId))
  else if domainState = VMS_RESTORING then
    some (setDefId (virDomainObjSetState dom .running .runningRestored)
      (uint32ToInt envId))
  else if domainState = VMS_CONTINUING then
    some (setDefId (virDomainObjSetState dom .running .runningUnpaused)
      (uint32ToInt envId))
  else if domainState = VMS_RESUMING then
    some (setDefId (virDomainObjSetState dom .running .runningRestored)
      (uint32ToInt envId))
  else if domainState = VMS_UNKNOWN then
    some (virDomainObjSetState dom .nostate .nostateUnknown)
  else none

/-- The SHUTOFF-equivalent class of internal states: SHUTOFF proper plus the
NOSTATE image of `VMS_UNKNOWN`, which the spec groups as
"SHUTOFF/UNKNOWN-shutoff-equivalent classes". -/
def shutoffEquivalent : VirDomainState → Bool
  | .shutoff => true
  | .nostate => true
  | _ => false

/-! ## The externally-owned object store

Modelled from the spec: the store exposes `find_by_uuid`, `insert` (returning
a newly locked slot) and `remove`; each slot has a stable identity (`sid`)
standing for the object's address/lock identity.  `virDomainObjListAdd`,
`virDomainObjListRemove` and `virDomainObjListFindByUUID` are libvirt
utilities not present in the given sources. -/

/-- One locked slot: a stable identity plus the object it holds. -/
structure Slot where
  sid : Nat
  obj : DomainObj
deriving DecidableEq, Repr

/-- The object store: slots in insertion order plus the next fresh slot
identity. -/
structure Store where
  slots : List Slot
  nextId : Nat
deriving DecidableEq, Repr

/-- Store well-formedness: every live slot identity is below `nextId`. -/
def StoreWF (st : Store) : Prop :=
  ∀ s ∈ st.slots, s.sid < st.nextId

instance (st : Store) : Decidable (StoreWF st) :=
  inferInstanceAs (Decidable (∀ s ∈ st.slots, s.sid < st.nextId))

/-- Modelled from the spec: `find_by_uuid(store, uuid) -> Option<Slot>`. -/
def virDomainObjListFindByUUID (st : Store) (u : List Nat) : Option Nat :=
  (st.slots.find? (fun s => s.obj.objDef.uuid == u)).map (·.sid)

/-- Modelled from the spec: `insert(store, definition) -> Locked Slot` — a new
slot with a fresh identity. -/
def virDomainObjListAdd (st : Store) (o : DomainObj) : Nat × Store :=
  (st.nextId, ⟨st.slots ++ [⟨st.nextId, o⟩], st.nextId + 1⟩)

/-- Modelled from the spec: `remove(store, slot)`. -/
def virDomainObjListRemove (st : Store) (sid : Nat) : Store :=
  ⟨st.slots.filter (fun s => s.sid != sid), st.nextId⟩

/-- In-place mutation of the object held by slot `sid` (the C code mutates the
slot object through its pointer; the slot identity never changes). -/
def storeUpdate (st : Store) (sid : Nat) (f : DomainObj → DomainObj) : Store :=
  ⟨st.slots.map (fun s => if s.sid = sid then ⟨s.sid, f s.obj⟩ else s), st.nextId⟩

/-- Read the object held by slot `sid`. -/
def lookupSlot (st : Store) (sid : Nat) : Option DomainObj :=
  (st.slots.find? (fun s => s.sid == sid)).map (·.obj)

/-! ## The domain reconciler (`prlsdkLoadDomain`) -/

/-- The private-data fields the loader computes off-store before publishing
them into the slot (CPU mask, external id, home path). -/
structure PdomPatch where
  cpumask : List Bool
  envId : Nat
  home : String
deriving DecidableEq, Repr

/-- Apply the loader's private-data assignments: `pdom->uuid = NULL`, the CPU
mask from `prlsdkConvertCpuInfo`, `pdom->id = envId`, the fresh home path;
the retained-handle flag is kept. -/
def applyPatch (p : PdomPatch) (pd : PdomData) : PdomData :=
  { id := p.envId, home := p.home, cpumask := p.cpumask,
    sdkdom := pd.sdkdom, uuid := none }

/-- Private data of a freshly allocated `parallelsDomObj` (zeroed). -/
def freshPdom : PdomData :=
  { id := 0, home := "", cpumask := [], sdkdom := false, uuid := none }

/-- The off-store construction phase of `prlsdkLoadDomain`
(parallels_sdk.c:1076-1135): identity, memory sizing, CPU, personality,
hardware, display, external id and home path, in source order.  Any failure
aborts with nothing published. -/
def buildDomainDef (hostcpus : Nat) (snap : Snapshot) :
    Option (DomainDef × PdomPatch) := do
  let (name, uuid) ← prlsdkGetDomainIds snap
  let ram ← snap.ram
  let base : DomainDef :=
    { id := -1, name := name, uuid := uuid,
      memMaxBalloon := MB2KB ram, memCurBalloon := MB2KB ram,
      vcpus := 0, maxvcpus := 0, osType := "", osInit := none, arch := .unset,
      videos := [], disks := [], nets := [], serials := [], graphics := [] }
  let (d1, cpumask) ← prlsdkConvertCpuInfo hostcpus snap base
  let d2 ← prlsdkConvertCpuMode snap d1
  let d3 ← prlsdkConvertDomainType snap d2
  let d4 ← prlsdkAddDomainHardware snap d3
  let d5 ← prlsdkAddVNCInfo snap d4
  let envId ← snap.envId
  let home ← snap.home
  return (d5, { cpumask := cpumask, envId := envId, home := home })

/-- A freshly inserted `virDomainObj` holding definition `d` (state and flags
are zero-initialised by the store's insert). -/
def newDomainObj (d : DomainDef) : DomainObj :=
  { objDef := d, st := .nostate, reason := .nostateUnknown,
    autostart := false, persistent := false, pdom := freshPdom }

/-- The failure exit of the publication phase: a freshly inserted slot is
removed again (`if (dom && !olddom) virDomainObjListRemove(...)`); a
refreshed slot stays. -/
def loadFail (freshIns : Bool) (sid : Nat) (st : Store) : Option Nat × Store :=
  (none, if freshIns then virDomainObjListRemove st sid else st)

/-- The publication phase shared by both modes of `prlsdkLoadDomain`
(parallels_sdk.c:1152-1186): with the object `o2` (definition, private data
and persistent flag) already published into slot `sid` of `st2`, fetch and
map the live state, decode the autostart mode (fatal outside the two known
values), and acquire the retained snapshot-handle reference if none is held.
`freshIns` records whether the slot was freshly inserted, in which case any
failure removes it again. -/
def prlsdkLoadFinish (snap : Snapshot) (envId : Nat) (freshIns : Bool)
    (sid : Nat) (o2 : DomainObj) (st2 : Store) : Option Nat × Store :=
  match snap.vmState with
  | none => loadFail freshIns sid st2
  | some vms =>
    match prlsdkConvertDomainState vms envId o2 with
    | none => loadFail freshIns sid st2
    | some o3 =>
      match snap.autostart with
      | none => loadFail freshIns sid (storeUpdate st2 sid (fun _ => o3))
      | some a =>
        if a = PAO_VM_START_ON_LOAD ∨ a = PAO_VM_START_MANUAL then
          if ({ o3 with autostart := a = PAO_VM_START_ON_LOAD } : DomainObj).pdom.sdkdom then
            (some sid,
             storeUpdate (storeUpdate st2 sid (fun _ => o3)) sid
               (fun _ => { o3 with autostart := a = PAO_VM_START_ON_LOAD }))
          else if snap.addRefOk then
            (some sid,
             storeUpdate (storeUpdate (storeUpdate st2 sid (fun _ => o3)) sid
                 (fun _ => { o3 with autostart := a = PAO_VM_START_ON_LOAD })) sid
               (fun _ =>
                 { ({ o3 with autostart := a = PAO_VM_START_ON_LOAD } : DomainObj) with
                     pdom :=
                       { ({ o3 with autostart := a = PAO_VM_START_ON_LOAD } :
                             DomainObj).pdom with sdkdom := true } }))
          else
            loadFail freshIns sid
              (storeUpdate (storeUpdate st2 sid (fun _ => o3)) sid
                (fun _ => { o3 with autostart := a = PAO_VM_START_ON_LOAD }))
        else loadFail freshIns sid (storeUpdate st2 sid (fun _ => o3))

/-- `prlsdkLoadDomain` (parallels_sdk.c:1057-1193).  `olddom = none` is fresh
discovery: the fully built object is inserted (insertion is the only store
write of the construction and the last step before the publication phase).
`olddom = some sid` is refresh: the slot's definition is replaced in place,
preserving the slot identity.  Both modes then run the publication phase.
Returns the locked slot (or `none`) plus the final store. -/
def prlsdkLoadDomain (hostcpus : Nat) (snap : Snapshot) (store : Store)
    (olddom : Option Nat) : Option Nat × Store :=
  match buildDomainDef hostcpus snap with
  | none => (none, store)
  | some (d, patch) =>
    match olddom with
    | some s =>
      let oldObj := (lookupSlot store s).getD (newDomainObj d)
      let o1 : DomainObj := { oldObj with objDef := d }
      let o2 : DomainObj :=
        { o1 with pdom := applyPatch patch o1.pdom, persistent := true }
      prlsdkLoadFinish snap patch.envId false s o2
        (storeUpdate (storeUpdate store s (fun o => { o with objDef := d })) s
          (fun _ => o2))
    | none =>
      let r := virDomainObjListAdd store (newDomainObj d)
      let o2 : DomainObj :=
        { newDomainObj d with
            pdom := applyPatch patch (newDomainObj d).pdom, persistent := true }
      prlsdkLoadFinish snap patch.envId true r.1 o2
        (storeUpdate r.2 r.1 (fun _ => o2))

/-! ## The request/job protocol (`getJobResultHelper`) -/

/-- Outcome of the SDK calls `await` makes on one job: the wait itself, the
return-code fetch, the job's return code, the richer-error fetch and the
result fetch.  Zero return values mean success. -/
structure JobBehavior where
  waitRet : Nat
  getRetCodeRet : Nat
  retCode : Nat
  getErrorRet : Nat
  getResultRet : Nat
deriving DecidableEq, Repr

/-- `getJobResultHelper` (parallels_sdk.c:132-176): every exit path goes
through the `cleanup` label, which frees the job handle exactly once.  The
result is `(result handle or none, number of times the job handle was
released)`.  The richer error event only affects logging, so the
`getErrorRet` branches coincide in this model. -/
def getJobResultHelper (jb : JobBehavior) : Option Unit × Nat :=
  if jb.waitRet ≠ 0 then (none, 1)
  else if jb.getRetCodeRet ≠ 0 then (none, 1)
  else if jb.retCode ≠ 0 then
    if jb.getErrorRet ≠ 0 then (none, 1) else (none, 1)
  else if jb.getResultRet ≠ 0 then (none, 1)
  else (some (), 1)

/-! ## Bulk load (`prlsdkLoadDomains`) -/

/-- Inputs of one bulk load: the list job's behaviour, the
`PrlResult_GetParamsCount` return code, and the per-index snapshot fetch
outcomes. -/
structure LoadDomainsInput where
  listJob : JobBehavior
  paramsCountRet : Nat
  params : List (Option Snapshot)
deriving Repr

/-- The reconciliation loop of `prlsdkLoadDomains`: each snapshot is loaded
as a fresh discovery; the first failure aborts. -/
def prlsdkLoadDomainsLoop (hostcpus : Nat) :
    List (Option Snapshot) → Store → Bool × Store
  | [], st => (true, st)
  | none :: _, st => (false, st)
  | some snap :: rest, st =>
    match prlsdkLoadDomain hostcpus snap st none with
    | (none, st') => (false, st')
    | (some _, st') => prlsdkLoadDomainsLoop hostcpus rest st'

/-- `prlsdkLoadDomains` (parallels_sdk.c:1195-1238).  Returns the C return
value, the final store, and how many times the list job's handle was
released.  `getJobResultHelper` already frees the job on every path; the
`error` label then calls `PrlHandle_Free(job)` once more — that second
release is counted here exactly as the C executes it. -/
def prlsdkLoadDomains (hostcpus : Nat) (inp : LoadDomainsInput) (store : Store) :
    Int × Store × Nat :=
  match getJobResultHelper inp.listJob with
  | (none, n) => (-1, store, n)
  | (some _, n) =>
    if inp.paramsCountRet ≠ 0 then (-1, store, n + 1)
    else
      match prlsdkLoadDomainsLoop hostcpus inp.params store with
      | (true, st') => (0, st', n)
      | (false, st') => (-1, st', n + 1)

/-! ## Lookup variant (`prlsdkAddDomain`) -/

inductive AddDomainErr where
  | noSuchDomain
  | loadFailed
deriving DecidableEq, Repr

/-- The external control plane as seen by `ensure_present`: the
get-snapshot-by-identity operation, keyed by the wire-formatted UUID string
(`PGVC_SEARCH_BY_UUID`). -/
structure PrlServer where
  byId : String → Option Snapshot

/-- `prlsdkSdkDomainLookupByUUID` (parallels_sdk.c:291-308): formats the UUID
into its wire form and asks the external system for the single matching
snapshot; reports no-such-domain when the lookup fails. -/
def prlsdkSdkDomainLookupByUUID (srv : PrlServer) (uuid : List Nat) :
    Option Snapshot :=
  srv.byId (prlsdkUUIDFormat uuid)

/-- `prlsdkAddDomain` (parallels_sdk.c:1240-1259): if the store already holds
the identity, return that slot unchanged without touching the external
system; otherwise look the snapshot up by identity (`noSuchDomain` when the
external system reports none) and reconcile it as a fresh discovery.  The
final component records whether an external lookup was issued. -/
def prlsdkAddDomain (hostcpus : Nat) (srv : PrlServer) (store : Store)
    (uuid : List Nat) : Except AddDomainErr Nat × Store × Bool :=
  match virDomainObjListFindByUUID store uuid with
  | some sid => (.ok sid, store, false)
  | none =>
    match prlsdkSdkDomainLookupByUUID srv uuid with
    | none => (.error .noSuchDomain, store, true)
    | some snap =>
      match prlsdkLoadDomain hostcpus snap store none with
      | (some sid, st') => (.ok sid, st', true)
      | (none, st') => (.error .loadFailed, st', true)


/-! ## Concrete fixtures used by the witnesses -/

/-- A domain object with no instance id assigned (`def->id = -1`), as every
freshly built definition starts out (parallels_sdk.c:1087). -/
def emptyDomainObj : DomainObj :=
  { objDef :=
      { id := -1, name := "", uuid := [], memMaxBalloon := 0,
        memCurBalloon := 0, vcpus := 0, maxvcpus := 0, osType := "",
        osInit := none, arch := .unset, videos := [], disks := [], nets := [],
        serials := [], graphics := [] },
    st := .nostate, reason := .nostateUnknown, autostart := false,
    persistent := false, pdom := freshPdom }

/-- The 16 bytes of UUID `00112233-4455-6677-8899-aabbccddeeff`. -/
def uuidBytes16 : List Nat :=
  [0, 17, 34, 51, 68, 85, 102, 119, 136, 153, 170, 187, 204, 221, 238, 255]

/-- A fully populated, well-formed snapshot: VM personality, one image-file
SCSI disk at device index 1, one routed adapter, VNC in auto mode on port
5901 bound to 0.0.0.0, running with external instance id 42. -/
def fullSnap : Snapshot :=
  { name := some "vm1"
    uuidstr := some "\x7b00112233-4455-6677-8899-aabbccddeeff\x7d"
    ram := some 512
    cpuCount := some 8
    cpuMask := some ""
    cpuMode := some PCM_CPU_MODE_64
    vmType := some PVT_VM
    videoRam := some 16
    hddCountOk := true
    hdds := [some { emulatedType := some PDT_USE_IMAGE_FILE,
                    friendlyName := some "/vz/disk.hdd",
                    ifaceType := some PMS_SCSI_DEVICE,
                    stackIndex := some 0, index := some 1 }]
    netCountOk := true
    nets := [some { index := some 0, hostIfName := some "vme0",
                    mac := some "00:1a:2b:3c:4d:5e",
                    emulatedType := some PNA_ROUTED, vnetId := some "net0",
                    isConnected := some true }]
    serialCountOk := true
    serials := []
    vncMode := some PRD_AUTO
    vncPort := some 5901
    vncHost := some "0.0.0.0"
    envId := some 42
    home := some "/vz/vm1"
    vmState := some VMS_RUNNING
    autostart := some PAO_VM_START_MANUAL
    addRefOk := true }

/-- The empty store. -/
def emptyStore : Store := { slots := [], nextId := 0 }

/-- The store after one successful fresh discovery of `fullSnap` on a 2-CPU
host: exactly one slot, identity 0. -/
def oneSlotStore : Store := (prlsdkLoadDomain 2 fullSnap emptyStore none).2

/-- An external system exposing exactly the domain of `fullSnap`. -/
def oneVmServer : PrlServer :=
  { byId := fun s =>
      if s = "\x7b00112233-4455-6677-8899-aabbccddeeff\x7d" then some fullSnap
      else none }

/-- Behaviour of a job whose every SDK call succeeds. -/
def okJob : JobBehavior :=
  { waitRet := 0, getRetCodeRet := 0, retCode := 0, getErrorRet := 0,
    getResultRet := 0 }

/-- Bulk-load input whose list job succeeds but whose
`PrlResult_GetParamsCount` call fails: the failing input of claim C4. -/
def paramsCountFailInput : LoadDomainsInput :=
  { listJob := okJob, paramsCountRet := 1, params := [] }

/-! ## Helper lemmas: hex and splitting -/

theorem parseHexChar_hexChar : ∀ d < 16, parseHexChar (hexChar d) = some d := by
  decide

theorem hexChar_ne_dash : ∀ d < 16, hexChar d ≠ '-' := by
  decide

theorem bytesHex_cons (b : Nat) (tl : List Nat) :
    bytesHex (b :: tl) = byteHexChars b ++ bytesHex tl := by
  simp [bytesHex]

theorem bytesHex_append (a b : List Nat) :
    bytesHex (a ++ b) = bytesHex a ++ bytesHex b := by
  simp [bytesHex]

theorem length_bytesHex (bs : List Nat) : (bytesHex bs).length = 2 * bs.length := by
  induction bs with
  | nil => rfl
  | cons b tl ih =>
    rw [bytesHex_cons]
    simp [byteHexChars, ih]
    omega

theorem dash_not_mem_bytesHex (bs : List Nat) (h : ∀ b ∈ bs, b < 256) :
    '-' ∉ bytesHex bs := by
  intro hm
  simp only [bytesHex, List.mem_flatten, List.mem_map] at hm
  obtain ⟨l, ⟨b, hb, rfl⟩, hdash⟩ := hm
  have hb256 := h b hb
  simp only [byteHexChars, List.mem_cons, List.mem_singleton] at hdash
  rcases hdash with e | e | e
  · exact hexChar_ne_dash (b / 16) (by omega) e.symm
  · exact hexChar_ne_dash (b % 16) (by omega) e.symm
  · exact absurd e (List.not_mem_nil _)

theorem parseBytes_bytesHex_append (bs : List Nat) (rest : List Char)
    (h : ∀ b ∈ bs, b < 256) :
    parseBytes (bytesHex bs ++ rest) = (parseBytes rest).map (fun t => bs ++ t) := by
  induction bs with
  | nil =>
    simp only [bytesHex, List.map_nil, List.flatten_nil, List.nil_append]
    cases parseBytes rest <;> rfl
  | cons b tl ih =>
    have hb : b < 256 := h b (by simp)
    have ha := parseHexChar_hexChar (b / 16) (by omega)
    have hl := parseHexChar_hexChar (b % 16) (by omega)
    rw [bytesHex_cons]
    simp only [parseBytes, List.append_assoc, byteHexChars, List.cons_append,
      List.append_eq, List.nil_append, ha, hl, Option.bind_some]
    rw [ih (fun x hx => h x (List.mem_cons_of_mem _ hx))]
    cases parseBytes rest with
    | none => rfl
    | some t =>
      have hb16 : 16 * (b / 16) + b % 16 = b := Nat.div_add_mod b 16
      simp [hb16]

theorem parseBytes_bytesHex (bs : List Nat) (h : ∀ b ∈ bs, b < 256) :
    parseBytes (bytesHex bs) = some bs := by
  have := parseBytes_bytesHex_append bs [] h
  simpa [parseBytes] using this

theorem splitChar_ne_nil (sep : Char) (l : List Char) : splitChar sep l ≠ [] := by
  induction l with
  | nil => simp [splitChar]
  | cons c rest ih =>
    simp only [splitChar]
    split
    · simp
    · split
      · simp
      · simp

theorem splitChar_not_mem (sep : Char) (l : List Char) (h : sep ∉ l) :
    splitChar sep l = [l] := by
  induction l with
  | nil => rfl
  | cons c rest ih =>
    have hc : ¬(c = sep) := fun e => h (by simp [e])
    have hr : sep ∉ rest := fun m => h (List.mem_cons_of_mem _ m)
    simp only [splitChar, if_neg hc, ih hr]

theorem splitChar_append (sep : Char) (xs l : List Char) (h : sep ∉ xs) :
    splitChar sep (xs ++ sep :: l) = xs :: splitChar sep l := by
  induction xs with
  | nil => simp [splitChar]
  | cons c rest ih =>
    have hc : ¬(c = sep) := fun e => h (by simp [e])
    have hr : sep ∉ rest := fun m => h (List.mem_cons_of_mem _ m)
    simp only [List.cons_append, splitChar, if_neg hc, List.append_eq, ih hr]

theorem virUUIDParse_virUUIDFormat (u : List Nat) (hlen : u.length = 16)
    (h256 : ∀ b ∈ u, b < 256) : virUUIDParse (virUUIDFormat u) = some u := by
  have hsub1 : ∀ b ∈ u.take 4, b < 256 := fun b hb => h256 b (List.take_subset _ _ hb)
  have hsub2 : ∀ b ∈ (u.drop 4).take 2, b < 256 :=
    fun b hb => h256 b (List.drop_subset _ _ (List.take_subset _ _ hb))
  have hsub3 : ∀ b ∈ (u.drop 6).take 2, b < 256 :=
    fun b hb => h256 b (List.drop_subset _ _ (List.take_subset _ _ hb))
  have hsub4 : ∀ b ∈ (u.drop 8).take 2, b < 256 :=
    fun b hb => h256 b (List.drop_subset _ _ (List.take_subset _ _ hb))
  have hsub5 : ∀ b ∈ u.drop 10, b < 256 := fun b hb => h256 b (List.drop_subset _ _ hb)
  have nd1 := dash_not_mem_bytesHex _ hsub1
  have nd2 := dash_not_mem_bytesHex _ hsub2
  have nd3 := dash_not_mem_bytesHex _ hsub3
  have nd4 := dash_not_mem_bytesHex _ hsub4
  have nd5 := dash_not_mem_bytesHex _ hsub5
  unfold virUUIDFormat virUUIDParse
  have htl : (String.mk (virUUIDFormatChars u)).toList = virUUIDFormatChars u := rfl
  rw [htl]
  unfold virUUIDFormatChars
  rw [splitChar_append _ _ _ nd1, splitChar_append _ _ _ nd2,
      splitChar_append _ _ _ nd3, splitChar_append _ _ _ nd4,
      splitChar_not_mem _ _ nd5]
  have l1 : (bytesHex (u.take 4)).length = 8 := by
    rw [length_bytesHex, List.length_take, hlen]; try omega
  have l2 : (bytesHex ((u.drop 4).take 2)).length = 4 := by
    rw [length_bytesHex, List.length_take, List.length_drop, hlen]; try omega
  have l3 : (bytesHex ((u.drop 6).take 2)).length = 4 := by
    rw [length_bytesHex, List.length_take, List.length_drop, hlen]; try omega
  have l4 : (bytesHex ((u.drop 8).take 2)).length = 4 := by
    rw [length_bytesHex, List.length_take, List.length_drop, hlen]; try omega
  have l5 : (bytesHex (u.drop 10)).length = 12 := by
    rw [length_bytesHex, List.length_drop, hlen]; try omega
  simp only [virUUIDParseGroups, if_pos (And.intro l1 (And.intro l2 (And.intro l3 (And.intro l4 l5))))]
  simp only [← bytesHex_append]
  have e8 : (u.drop 8).take 2 ++ u.drop 10 = u.drop 8 := by
    have h := List.take_append_drop 2 (u.drop 8)
    rwa [List.drop_drop, show 2 + 8 = 10 from rfl] at h
  have e6 : (u.drop 6).take 2 ++ u.drop 8 = u.drop 6 := by
    have h := List.take_append_drop 2 (u.drop 6)
    rwa [List.drop_drop, show 2 + 6 = 8 from rfl] at h
  have e4 : (u.drop 4).take 2 ++ u.drop 6 = u.drop 4 := by
    have h := List.take_append_drop 2 (u.drop 4)
    rwa [List.drop_drop, show 2 + 4 = 6 from rfl] at h
  have e0 : u.take 4 ++ u.drop 4 = u := List.take_append_drop 4 u
  rw [List.append_assoc, List.append_assoc, List.append_assoc, e8, e6, e4, e0]
  exact parseBytes_bytesHex u h256

/-! ## Claim C2 -/

/-- C2 counterexample: the claim says every malformed wire string (missing
bracket, invalid hex) fails to decode.  The wire string below uses
parentheses instead of the brace convention — it is malformed — yet
`prlsdkUUIDParse` decodes it successfully, because the code strips the first
and last character without checking that they are braces. -/
theorem prlsdkUUIDParse_wrong_brackets_accepted :
    prlsdkUUIDParse "(00112233-4455-6677-8899-aabbccddeeff)" ≠ none ∧
    prlsdkUUIDParse "(00112233-4455-6677-8899-aabbccddeeff)" =
      some [0, 17, 34, 51, 68, 85, 102, 119, 136, 153, 170, 187, 204, 221, 238, 255] := by
  constructor
  · decide
  · decide

/-- C2 (amended): for every valid 128-bit UUID the codec is a clean round
trip, `decode(encode(u)) = u`; and decoding fails exactly when the wire
string's interior (first and last character removed, unchecked) is not a
canonical UUID — e.g. invalid hex inside braces fails, but wrong bracket
characters around a valid interior are accepted. -/
theorem prlsdkUUID_codec_round_trip :
    (∀ u : List Nat, u.length = 16 → (∀ b ∈ u, b < 256) →
      prlsdkUUIDParse (prlsdkUUIDFormat u) = some u) ∧
    prlsdkUUIDParse "\x7b00112233-4455-6677-8899-aabbccddeefg\x7d" = none := by
  constructor
  · intro u hlen h256
    unfold prlsdkUUIDFormat prlsdkUUIDParse
    have h1 : (String.mk ('\x7b' :: (virUUIDFormat u).toList ++ ['\x7d'])).toList
        = '\x7b' :: ((virUUIDFormat u).toList ++ ['\x7d']) := rfl
    rw [h1]
    have h2 : ('\x7b' :: ((virUUIDFormat u).toList ++ ['\x7d'])).dropLast
        = '\x7b' :: (virUUIDFormat u).toList := by
      rw [← List.cons_append, List.dropLast_concat]
    rw [h2]
    have h3 : ('\x7b' :: (virUUIDFormat u).toList).tail
        = (virUUIDFormat u).toList := rfl
    rw [h3]
    have h4 : String.mk (virUUIDFormat u).toList = virUUIDFormat u := rfl
    rw [h4]
    exact virUUIDParse_virUUIDFormat u hlen h256
  · decide

/-- C2 witness: the round trip evaluated at a concrete UUID. -/
theorem prlsdkUUID_codec_round_trip_witness :
    prlsdkUUIDParse (prlsdkUUIDFormat
      [0, 17, 34, 51, 68, 85, 102, 119, 136, 153, 170, 187, 204, 221, 238, 255]) =
    some [0, 17, 34, 51, 68, 85, 102, 119, 136, 153, 170, 187, 204, 221, 238, 255] :=
  prlsdkUUID_codec_round_trip.1 _ (by decide) (by decide)

/-! ## Claim C3 -/

theorem uint32ToInt_small (n : Nat) (h : n < 2147483648) :
    uint32ToInt n = (n : Int) := by
  unfold uint32ToInt
  rw [Nat.mod_eq_of_lt (by omega), if_pos h]

/-- C3 counterexample: the claim asserts the resulting instance id is the
sentinel -1 if and only if the mapped lifecycle state is SHUTOFF-class, for
every external instance id.  At external instance id `0xFFFFFFFF` the
narrowing of `PRL_UINT32` to the signed `int` field `def->id`
(`dom->def->id = envId`, parallels_sdk.c:878) stores the sentinel -1 while
the mapped state is RUNNING — not SHUTOFF-class — so the iff fails there. -/
theorem prlsdkConvertDomainState_sentinel_collision :
    (prlsdkConvertDomainState VMS_RUNNING 4294967295 emptyDomainObj).map
        (fun dom' => (dom'.st, dom'.objDef.id)) =
      some (VirDomainState.running, -1) ∧
    shutoffEquivalent VirDomainState.running = false := by
  exact ⟨by decide, rfl⟩

/-- C3 (amended): for every known external run-state value and every
representable external instance id — one below `2^31`, which the
`PRL_UINT32` to `int` narrowing maps to itself — the mapper produces exactly
one (state, reason) pair; starting from an unassigned definition
(`def->id = -1`, as the loader always does), the resulting instance id is
the sentinel `-1` exactly when the mapped state is SHUTOFF-class (SHUTOFF
proper or the NOSTATE image of `VMS_UNKNOWN`, which the spec groups as
shutoff-equivalent).  At the unrepresentable id `0xFFFFFFFF` the narrowing
collapses onto the sentinel even in RUNNING-class states.  In particular
`running` with instance id 42 maps to (RUNNING, booted, 42) and `stopped`
maps to (SHUTOFF, shutdown, -1) regardless of the reported instance id. -/
theorem prlsdkConvertDomainState_total (s : Nat) (hs : s ∈ knownVmStates)
    (envId : Nat) (hrep : envId < 2147483648) (dom : DomainObj)
    (hid : dom.objDef.id = -1) :
    ∃ dom', prlsdkConvertDomainState s envId dom = some dom' ∧
      (dom'.objDef.id = -1 ↔ shutoffEquivalent dom'.st = true) ∧
      (s = VMS_RUNNING → dom'.st = .running ∧ dom'.reason = .runningBooted ∧
        dom'.objDef.id = (envId : Int)) ∧
      (s = VMS_STOPPED → dom'.st = .shutoff ∧ dom'.reason = .shutoffShutdown ∧
        dom'.objDef.id = -1) := by
  fin_cases hs <;>
  · refine ⟨_, rfl, ?_, ?_, ?_⟩ <;>
      simp [prlsdkConvertDomainState, setDefId, virDomainObjSetState,
        shutoffEquivalent, hid, uint32ToInt_small envId hrep]

/-- C3 witness: the mapper applied to `running`, instance id 42. -/
theorem prlsdkConvertDomainState_total_witness :
    VMS_RUNNING ∈ knownVmStates ∧ (42 : Nat) < 2147483648 ∧
    emptyDomainObj.objDef.id = -1 ∧
    ∃ dom', prlsdkConvertDomainState VMS_RUNNING 42 emptyDomainObj = some dom' := by
  refine ⟨by decide, by decide, rfl, ?_⟩
  obtain ⟨d', hd', -⟩ :=
    prlsdkConvertDomainState_total VMS_RUNNING (by decide) 42 (by decide)
      emptyDomainObj rfl
  exact ⟨d', hd'⟩

/-! ## Claim C6 -/

/-- C6: for every successfully extracted disk, emulated type image-file
yields file storage with the ploop container format and any other emulated
type yields a raw block device (no container format); the logical target
name is always derived deterministically from the zero-based device index
with prefix `sd` — in particular index 1 yields `sdb`. -/
theorem prlsdkGetDiskInfo_classification (d : DiskSnap) (disk : DiskDef)
    (h : prlsdkGetDiskInfo d = some disk) :
    (d.emulatedType = some PDT_USE_IMAGE_FILE →
      disk.stype = .file ∧ disk.format = some .ploop) ∧
    (∀ et, d.emulatedType = some et → et ≠ PDT_USE_IMAGE_FILE →
      disk.stype = .block ∧ disk.format = none) ∧
    (∀ i, d.index = some i → disk.dst = virIndexToDiskName i "sd") ∧
    virIndexToDiskName 1 "sd" = "sdb" := by
  simp only [prlsdkGetDiskInfo, Option.bind_eq_bind, Option.bind_eq_some] at h
  obtain ⟨et, het, fn, hfn, ify, hify, bus, hbus, si, hsi, ix, hix, hdisk⟩ := h
  injection hdisk with hdisk
  subst hdisk
  refine ⟨?_, ?_, ?_, by decide⟩
  · intro hx
    rw [het] at hx
    injection hx with hx
    subst hx
    exact ⟨rfl, rfl⟩
  · intro et' het' hne
    rw [het] at het'
    injection het' with het'
    subst het'
    simp [if_neg hne]
  · intro i hi
    rw [hix] at hi
    injection hi with hi
    subst hi
    rfl

/-- C6 witness: a concrete image-file disk at device index 1 is classified as
file storage, ploop format, target `sdb`. -/
theorem prlsdkGetDiskInfo_classification_witness :
    ∃ disk, prlsdkGetDiskInfo
        { emulatedType := some PDT_USE_IMAGE_FILE,
          friendlyName := some "/vz/disk.hdd",
          ifaceType := some PMS_SCSI_DEVICE,
          stackIndex := some 0, index := some 1 } = some disk ∧
      disk.stype = .file ∧ disk.format = some .ploop ∧ disk.dst = "sdb" := by
  refine ⟨_, rfl, ?_⟩
  have h := prlsdkGetDiskInfo_classification
    { emulatedType := some PDT_USE_IMAGE_FILE,
      friendlyName := some "/vz/disk.hdd",
      ifaceType := some PMS_SCSI_DEVICE,
      stackIndex := some 0, index := some 1 } _ rfl
  exact ⟨(h.1 rfl).1, (h.1 rfl).2, by rw [h.2.2.1 1 rfl]; decide⟩

/-! ## Claim C7 -/

/-- C7: on a definition with no graphics yet, VNC mode disabled contributes
zero display descriptors (the definition is returned untouched), and any
other mode contributes exactly one descriptor whose autoport flag is set
exactly for mode auto, whose port is the snapshot's port, and whose single
listen entry is the snapshot's host address. -/
theorem prlsdkAddVNCInfo_display (snap : Snapshot) (d : DomainDef)
    (hempty : d.graphics = []) :
    (snap.vncMode = some PRD_DISABLED →
      prlsdkAddVNCInfo snap d = some d ∧ d.graphics = []) ∧
    (∀ mode d', snap.vncMode = some mode → mode ≠ PRD_DISABLED →
      prlsdkAddVNCInfo snap d = some d' →
      ∃ port host, snap.vncPort = some port ∧ snap.vncHost = some host ∧
        d'.graphics = [{ autoport := mode = PRD_AUTO, port := port,
                         listens := [host] }]) := by
  constructor
  · intro hmode
    refine ⟨?_, hempty⟩
    simp [prlsdkAddVNCInfo, hmode]
  · intro mode d' hmode hne h
    simp only [prlsdkAddVNCInfo, hmode, Option.bind_eq_bind, Option.some_bind,
      if_neg hne] at h
    simp only [Option.bind_eq_some] at h
    obtain ⟨port, hport, host, hhost, hd'⟩ := h
    injection hd' with hd'
    subst hd'
    exact ⟨port, host, hport, hhost, by simp [hempty]⟩

/-- C7 witness: mode auto, port 5901, host 0.0.0.0 yields exactly one
descriptor with autoport set. -/
theorem prlsdkAddVNCInfo_display_witness :
    emptyDomainObj.objDef.graphics = [] ∧
    ∃ d', prlsdkAddVNCInfo fullSnap emptyDomainObj.objDef = some d' ∧
      d'.graphics = [{ autoport := true, port := 5901, listens := ["0.0.0.0"] }] := by
  refine ⟨rfl, ?_⟩
  obtain ⟨port, host, hport, hhost, hg⟩ :=
    (prlsdkAddVNCInfo_display fullSnap emptyDomainObj.objDef rfl).2
      PRD_AUTO _ rfl (by decide) rfl
  rw [show fullSnap.vncPort = some 5901 from rfl] at hport
  rw [show fullSnap.vncHost = some "0.0.0.0" from rfl] at hhost
  injection hport with hport
  injection hhost with hhost
  subst hport
  subst hhost
  exact ⟨_, rfl, by rw [hg]; rfl⟩

/-! ## Claim C8 -/

/-- C8: whenever CPU conversion succeeds, a vCPU count above the host
logical CPU count is clamped down to the host count in both the current and
maximum fields (below it is taken as is); an empty external mask yields a
fully-set bitmap of host width; a nonempty mask is parsed against the host
CPU count. -/
theorem prlsdkConvertCpuInfo_clamp (hostcpus : Nat) (snap : Snapshot)
    (d d' : DomainDef) (bm : List Bool)
    (h : prlsdkConvertCpuInfo hostcpus snap d = some (d', bm)) :
    (∀ c, snap.cpuCount = some c →
      d'.vcpus = min c hostcpus ∧ d'.maxvcpus = min c hostcpus) ∧
    (snap.cpuMask = some "" → bm = List.replicate hostcpus true) ∧
    (∀ m, snap.cpuMask = some m → m ≠ "" → virBitmapParse m hostcpus = some bm) := by
  simp only [prlsdkConvertCpuInfo, Option.bind_eq_bind, Option.bind_eq_some] at h
  obtain ⟨c, hc, m, hm, b, hb, hout⟩ := h
  injection hout with hout
  have hd' : d' = { d with vcpus := if c > hostcpus then hostcpus else c,
                           maxvcpus := if c > hostcpus then hostcpus else c } := by
    have := congrArg Prod.fst hout
    exact this.symm
  have hbm : bm = b := by
    have := congrArg Prod.snd hout
    exact this.symm
  subst hbm
  refine ⟨?_, ?_, ?_⟩
  · intro c' hc'
    rw [hc] at hc'
    injection hc' with hc'
    subst hc'
    have hmin : (if c > hostcpus then hostcpus else c) = min c hostcpus := by
      rcases le_or_lt c hostcpus with hle | hlt
      · rw [if_neg (by omega), Nat.min_eq_left hle]
      · rw [if_pos (by omega), Nat.min_eq_right (by omega)]
    rw [hd']
    constructor <;> exact hmin
  · intro hmask
    rw [hm] at hmask
    injection hmask with hmask
    subst hmask
    simpa [prlsdkCpuMaskOf] using hb.symm
  · intro m' hm' hne
    rw [hm] at hm'
    injection hm' with hm'
    subst hm'
    simpa [prlsdkCpuMaskOf, if_neg hne] using hb

/-- C8 witness: 8 requested vCPUs on a 2-CPU host are clamped to 2, and the
empty mask yields the fully-set 2-bit bitmap. -/
theorem prlsdkConvertCpuInfo_clamp_witness :
    ∃ d' bm, prlsdkConvertCpuInfo 2 fullSnap emptyDomainObj.objDef = some (d', bm) ∧
      d'.vcpus = 2 ∧ d'.maxvcpus = 2 ∧ bm = [true, true] := by
  refine ⟨_, _, rfl, ?_, ?_, ?_⟩
  · exact (((prlsdkConvertCpuInfo_clamp 2 fullSnap emptyDomainObj.objDef _ _ rfl).1) 8 rfl).1
  · exact (((prlsdkConvertCpuInfo_clamp 2 fullSnap emptyDomainObj.objDef _ _ rfl).1) 8 rfl).2
  · exact ((prlsdkConvertCpuInfo_clamp 2 fullSnap emptyDomainObj.objDef _ _ rfl).2).1 rfl

/-! ## Claim C10 -/

theorem prlsdkHardDisksLoop_ct (l : List (Option DiskSnap)) (d d' : DomainDef)
    (hct : IS_CT d = true) (h : prlsdkHardDisksLoop l d = some d') : d' = d := by
  induction l with
  | nil =>
    simp only [prlsdkHardDisksLoop] at h
    injection h with h
    exact h.symm
  | cons o rest ih =>
    cases o with
    | none => simp [prlsdkHardDisksLoop] at h
    | some hd =>
      simp only [prlsdkHardDisksLoop, hct, if_true] at h
      exact ih h

theorem prlsdkHardDisksLoop_vm (l : List (Option DiskSnap)) (d d' : DomainDef)
    (hct : IS_CT d = false) (h : prlsdkHardDisksLoop l d = some d') :
    ∃ ds, l.mapM (fun oh => oh.bind prlsdkGetDiskInfo) = some ds ∧
      d'.disks = d.disks ++ ds := by
  induction l generalizing d with
  | nil =>
    simp only [prlsdkHardDisksLoop] at h
    injection h with h
    exact ⟨[], rfl, by rw [← h]; simp⟩
  | cons o rest ih =>
    cases o with
    | none => simp [prlsdkHardDisksLoop] at h
    | some hd =>
      simp only [prlsdkHardDisksLoop, hct, Bool.false_eq_true, if_false] at h
      cases hdi : prlsdkGetDiskInfo hd with
      | none => rw [hdi] at h; exact absurd h (by simp)
      | some disk =>
        rw [hdi] at h
        have hct' : IS_CT { d with disks := d.disks ++ [disk] } = false := hct
        obtain ⟨ds, hds, hdisks⟩ := ih _ hct' h
        refine ⟨disk :: ds, ?_, ?_⟩
        · simp only [List.mapM_cons, Option.bind_eq_bind, Option.some_bind, hdi, hds]
          rfl
        · rw [hdisks]; simp

/-- C10: whenever hard-disk extraction succeeds on a container-personality
definition, it contributes no disk descriptors at all — the definition comes
back unchanged (so a definition that started with no disks still has none,
however many disks the snapshot reports) — while for a full-machine
definition every reported disk is converted and appended in order. -/
theorem prlsdkAddDomainHardDisksInfo_container (snap : Snapshot)
    (d d' : DomainDef) (h : prlsdkAddDomainHardDisksInfo snap d = some d') :
    (IS_CT d = true → d' = d ∧ (d.disks = [] → d'.disks = [])) ∧
    (IS_CT d = false →
      ∃ ds, snap.hdds.mapM (fun oh => oh.bind prlsdkGetDiskInfo) = some ds ∧
        d'.disks = d.disks ++ ds) := by
  unfold prlsdkAddDomainHardDisksInfo at h
  cases hok : snap.hddCountOk with
  | false => rw [hok] at h; exact absurd h (by simp)
  | true =>
    rw [hok] at h
    simp only [if_pos rfl] at h
    constructor
    · intro hct
      have he := prlsdkHardDisksLoop_ct snap.hdds d d' hct h
      exact ⟨he, fun hd0 => by rw [he, hd0]⟩
    · intro hct
      exact prlsdkHardDisksLoop_vm snap.hdds d d' hct h

/-- C10 witness: the container personality skips the snapshot's disk; the
resulting definition still has an empty disk list. -/
theorem prlsdkAddDomainHardDisksInfo_container_witness :
    ∃ d', prlsdkAddDomainHardDisksInfo fullSnap
        { emptyDomainObj.objDef with osType := "exe" } = some d' ∧ d'.disks = [] := by
  refine ⟨_, rfl, ?_⟩
  have h := prlsdkAddDomainHardDisksInfo_container fullSnap
    { emptyDomainObj.objDef with osType := "exe" } _ rfl
  exact (h.1 rfl).2 rfl

/-! ## Store lemmas -/

theorem filter_map_update (l : List Slot) (sid : Nat) (f : DomainObj → DomainObj) :
    (l.map (fun s => if s.sid = sid then ⟨s.sid, f s.obj⟩ else s)).filter
        (fun s => s.sid != sid) =
      l.filter (fun s => s.sid != sid) := by
  induction l with
  | nil => rfl
  | cons a t ih =>
    by_cases ha : a.sid = sid
    · simp [List.filter_cons, ha, ih]
    · simp [List.filter_cons, ha, ih]

theorem remove_storeUpdate (st : Store) (sid : Nat) (f : DomainObj → DomainObj) :
    virDomainObjListRemove (storeUpdate st sid f) sid =
      virDomainObjListRemove st sid := by
  unfold virDomainObjListRemove storeUpdate
  simp only [Store.mk.injEq, and_true]
  exact filter_map_update st.slots sid f

theorem remove_add_slots (st : Store) (o : DomainObj) (hwf : StoreWF st) :
    (virDomainObjListRemove (virDomainObjListAdd st o).2
      (virDomainObjListAdd st o).1).slots = st.slots := by
  unfold virDomainObjListAdd virDomainObjListRemove
  simp only
  rw [List.filter_append]
  have h1 : st.slots.filter (fun s => s.sid != st.nextId) = st.slots :=
    List.filter_eq_self.mpr (fun s hs => by
      have hlt := hwf s hs
      simp only [bne_iff_ne, ne_eq]
      omega)
  have h2 : ([(⟨st.nextId, o⟩ : Slot)]).filter (fun s => s.sid != st.nextId) = [] := by
    simp
  rw [h1, h2, List.append_nil]

theorem storeUpdate_slots_sids (st : Store) (sid : Nat) (f : DomainObj → DomainObj) :
    (storeUpdate st sid f).slots.map (·.sid) = st.slots.map (·.sid) := by
  unfold storeUpdate
  simp only [List.map_map]
  apply List.map_congr_left
  intro s _
  by_cases h : s.sid = sid <;> simp [h]

theorem storeUpdate_comp (st : Store) (sid : Nat) (f g : DomainObj → DomainObj) :
    storeUpdate (storeUpdate st sid f) sid g =
      storeUpdate st sid (fun o => g (f o)) := by
  unfold storeUpdate
  simp only [Store.mk.injEq, and_true, List.map_map]
  apply List.map_congr_left
  intro s _
  by_cases h : s.sid = sid <;> simp [h]

theorem find_map_update_self (l : List Slot) (sid : Nat) (f : DomainObj → DomainObj) :
    ((l.map (fun s => if s.sid = sid then ⟨s.sid, f s.obj⟩ else s)).find?
        (fun s => s.sid == sid)).map (·.obj) =
      ((l.find? (fun s => s.sid == sid)).map (·.obj)).map f := by
  induction l with
  | nil => rfl
  | cons a t ih =>
    by_cases h : a.sid = sid
    · have hp2 : (a.sid == sid) = true := by simp [h]
      simp only [List.map_cons, if_pos h, List.find?_cons, hp2]
      simp
    · have hp2 : (a.sid == sid) = false := by simp [h]
      simp only [List.map_cons, if_neg h, List.find?_cons, hp2]
      exact ih

theorem lookupSlot_storeUpdate_self (st : Store) (sid : Nat)
    (f : DomainObj → DomainObj) :
    lookupSlot (storeUpdate st sid f) sid = (lookupSlot st sid).map f := by
  unfold lookupSlot storeUpdate
  exact find_map_update_self st.slots sid f

theorem find_map_update_other (l : List Slot) (sid t : Nat)
    (f : DomainObj → DomainObj) (hne : t ≠ sid) :
    (l.map (fun s => if s.sid = sid then ⟨s.sid, f s.obj⟩ else s)).find?
        (fun s => s.sid == t) =
      l.find? (fun s => s.sid == t) := by
  induction l with
  | nil => rfl
  | cons a tl ih =>
    by_cases h : a.sid = sid
    · have hp : (sid == t) = false := by
        simp only [beq_eq_false_iff_ne, ne_eq]
        exact fun e => hne e.symm
      have hporig : (a.sid == t) = false := by rw [h]; exact hp
      have hhead : (if a.sid = sid then (⟨a.sid, f a.obj⟩ : Slot) else a)
          = ⟨sid, f a.obj⟩ := by rw [if_pos h, h]
      simp only [List.map_cons, hhead, List.find?_cons, hp, hporig]
      exact ih
    · by_cases hp : a.sid == t
      · simp only [List.map_cons, if_neg h, List.find?_cons, hp]
      · rw [Bool.not_eq_true] at hp
        simp only [List.map_cons, if_neg h, List.find?_cons, hp]
        exact ih

theorem lookupSlot_storeUpdate_other (st : Store) (sid t : Nat)
    (f : DomainObj → DomainObj) (hne : t ≠ sid) :
    lookupSlot (storeUpdate st sid f) t = lookupSlot st t := by
  unfold lookupSlot storeUpdate
  rw [find_map_update_other st.slots sid t f hne]

/-! ## Publication-phase lemmas -/

theorem prlsdkConvertDomainState_objDef (vms envId : Nat) (dom dom' : DomainObj)
    (h : prlsdkConvertDomainState vms envId dom = some dom') :
    ∃ i, dom'.objDef = { dom.objDef with id := i } := by
  unfold prlsdkConvertDomainState at h
  by_cases hc1 : vms = VMS_STOPPED ∨ vms = VMS_MOUNTED
  · rw [if_pos hc1] at h
    injection h with h
    subst h
    exact ⟨_, rfl⟩
  rw [if_neg hc1] at h
  by_cases hc2 : vms = VMS_STARTING ∨ vms = VMS_COMPACTING ∨ vms = VMS_RESETTING ∨ vms = VMS_PAUSING ∨ vms = VMS_RECONNECTING ∨ vms = VMS_RUNNING
  · rw [if_pos hc2] at h
    injection h with h
    subst h
    exact ⟨_, rfl⟩
  rw [if_neg hc2] at h
  by_cases hc3 : vms = VMS_PAUSED
  · rw [if_pos hc3] at h
    injection h with h
    subst h
    exact ⟨_, rfl⟩
  rw [if_neg hc3] at h
  by_cases hc4 : vms = VMS_SUSPENDED ∨ vms = VMS_DELETING_STATE ∨ vms = VMS_SUSPENDING_SYNC
  · rw [if_pos hc4] at h
    injection h with h
    subst h
    exact ⟨_, rfl⟩
  rw [if_neg hc4] at h
  by_cases hc5 : vms = VMS_STOPPING
  · rw [if_pos hc5] at h
    injection h with h
    subst h
    exact ⟨_, rfl⟩
  rw [if_neg hc5] at h
  by_cases hc6 : vms = VMS_SNAPSHOTING
  · rw [if_pos hc6] at h
    injection h with h
    subst h
    exact ⟨_, rfl⟩
  rw [if_neg hc6] at h
  by_cases hc7 : vms = VMS_MIGRATING
  · rw [if_pos hc7] at h
    injection h with h
    subst h
    exact ⟨_, rfl⟩
  rw [if_neg hc7] at h
  by_cases hc8 : vms = VMS_SUSPENDING
  · rw [if_pos hc8] at h
    injection h with h
    subst h
    exact ⟨_, rfl⟩
  rw [if_neg hc8] at h
  by_cases hc9 : vms = VMS_RESTORING
  · rw [if_pos hc9] at h
    injection h with h
    subst h
    exact ⟨_, rfl⟩
  rw [if_neg hc9] at h
  by_cases hc10 : vms = VMS_CONTINUING
  · rw [if_pos hc10] at h
    injection h with h
    subst h
    exact ⟨_, rfl⟩
  rw [if_neg hc10] at h
  by_cases hc11 : vms = VMS_RESUMING
  · rw [if_pos hc11] at h
    injection h with h
    subst h
    exact ⟨_, rfl⟩
  rw [if_neg hc11] at h
  by_cases hc12 : vms = VMS_UNKNOWN
  · rw [if_pos hc12] at h
    injection h with h
    subst h
    exact ⟨_, rfl⟩
  rw [if_neg hc12] at h
  exact Option.noConfusion h

theorem prlsdkLoadFinish_none_snd (snap : Snapshot) (envId : Nat) (sid : Nat)
    (o2 : DomainObj) (st2 : Store) (store' : Store)
    (h : prlsdkLoadFinish snap envId true sid o2 st2 = (none, store')) :
    store' = virDomainObjListRemove st2 sid := by
  unfold prlsdkLoadFinish at h
  split at h
  · injection h with h1 h2
    exact h2.symm
  · split at h
    · injection h with h1 h2
      exact h2.symm
    · split at h
      · injection h with h1 h2
        exact h2.symm.trans (remove_storeUpdate st2 sid _)
      · split at h
        · split at h
          · injection h with h1 h2
            exact Option.noConfusion h1
          · split at h
            · injection h with h1 h2
              exact Option.noConfusion h1
            · injection h with h1 h2
              exact h2.symm.trans
                ((remove_storeUpdate _ sid _).trans (remove_storeUpdate st2 sid _))
        · injection h with h1 h2
          exact h2.symm.trans (remove_storeUpdate st2 sid _)

theorem prlsdkLoadFinish_some (snap : Snapshot) (envId : Nat) (fresh : Bool)
    (sid : Nat) (o2 : DomainObj) (st2 : Store) (r : Nat) (store' : Store)
    (h : prlsdkLoadFinish snap envId fresh sid o2 st2 = (some r, store')) :
    r = sid ∧ ∃ oF, store' = storeUpdate st2 sid (fun _ => oF) ∧
      ∃ i, oF.objDef = { o2.objDef with id := i } := by
  unfold prlsdkLoadFinish at h
  split at h
  · injection h with h1 h2
    exact Option.noConfusion h1
  · split at h
    · injection h with h1 h2
      exact Option.noConfusion h1
    · next o3 hc =>
      split at h
      · injection h with h1 h2
        exact Option.noConfusion h1
      · split at h
        · split at h
          · injection h with h1 h2
            injection h1 with h1
            obtain ⟨i, hi⟩ := prlsdkConvertDomainState_objDef _ _ _ _ hc
            exact ⟨h1.symm, _, h2.symm.trans (storeUpdate_comp st2 sid _ _), i, hi⟩
          · split at h
            · injection h with h1 h2
              injection h1 with h1
              obtain ⟨i, hi⟩ := prlsdkConvertDomainState_objDef _ _ _ _ hc
              exact ⟨h1.symm, _,
                h2.symm.trans ((storeUpdate_comp _ sid _ _).trans
                  (storeUpdate_comp st2 sid _ _)), i, hi⟩
            · injection h with h1 h2
              exact Option.noConfusion h1
        · injection h with h1 h2
          exact Option.noConfusion h1

/-! ## Claim C1 -/

/-- C1: fresh-discovery reconciliation is atomic — whenever
`prlsdkLoadDomain` is called with no existing slot and returns failure, the
store's slots are exactly what they were before the call (construction
happens off-store, insertion is rolled back on any later failure), so in
particular no entry for the snapshot's UUID — or any other UUID — appears. -/
theorem prlsdkLoadDomain_fresh_atomic (hostcpus : Nat) (snap : Snapshot)
    (store store' : Store) (hwf : StoreWF store)
    (h : prlsdkLoadDomain hostcpus snap store none = (none, store')) :
    store'.slots = store.slots ∧
    ∀ u, virDomainObjListFindByUUID store' u = virDomainObjListFindByUUID store u := by
  suffices hs : store'.slots = store.slots by
    refine ⟨hs, fun u => ?_⟩
    unfold virDomainObjListFindByUUID
    rw [hs]
  unfold prlsdkLoadDomain at h
  cases hb : buildDomainDef hostcpus snap with
  | none =>
    rw [hb] at h
    injection h with h1 h2
    rw [h2]
  | some dp =>
    rw [hb] at h
    obtain ⟨d, patch⟩ := dp
    have hr := prlsdkLoadFinish_none_snd _ _ _ _ _ _ h
    rw [hr, remove_storeUpdate]
    exact remove_add_slots store (newDomainObj d) hwf

/-- C1 witness: a snapshot whose autostart value is unknown fails after the
object was inserted; the store's slots are unchanged afterwards. -/
theorem prlsdkLoadDomain_fresh_atomic_witness :
    StoreWF emptyStore ∧
    ∃ store', prlsdkLoadDomain 2 { fullSnap with autostart := some 5 }
        emptyStore none = (none, store') ∧ store'.slots = emptyStore.slots := by
  refine ⟨by decide, _, rfl, ?_⟩
  exact (prlsdkLoadDomain_fresh_atomic 2 { fullSnap with autostart := some 5 }
    emptyStore _ (by decide) rfl).1

/-! ## Claim C5 -/

/-- C5: refresh preserves slot identity — a successful reconciliation with
`existing = some sid` returns the very same slot identity, changes no slot
identity in the store (same identities in the same order, same next fresh
identity), leaves every other slot untouched, and afterwards slot `sid`
holds exactly the newly built definition (with the instance id assigned by
the state mapper). -/
theorem prlsdkLoadDomain_refresh_in_place (hostcpus : Nat) (snap : Snapshot)
    (store store' : Store) (sid r : Nat) (o₀ : DomainObj)
    (h0 : lookupSlot store sid = some o₀)
    (h : prlsdkLoadDomain hostcpus snap store (some sid) = (some r, store')) :
    r = sid ∧
    store'.slots.map (·.sid) = store.slots.map (·.sid) ∧
    store'.nextId = store.nextId ∧
    (∀ t, t ≠ sid → lookupSlot store' t = lookupSlot store t) ∧
    ∃ d patch, buildDomainDef hostcpus snap = some (d, patch) ∧
      ∃ o', lookupSlot store' sid = some o' ∧
        ∃ i, o'.objDef = { d with id := i } := by
  unfold prlsdkLoadDomain at h
  cases hb : buildDomainDef hostcpus snap with
  | none =>
    rw [hb] at h
    injection h with h1 h2
    exact Option.noConfusion h1
  | some dp =>
    rw [hb] at h
    obtain ⟨d, patch⟩ := dp
    obtain ⟨hr, oF, hstore, i, hobj⟩ := prlsdkLoadFinish_some _ _ _ _ _ _ _ _ h
    refine ⟨hr, ?_, ?_, ?_, d, patch, rfl, ?_⟩
    · rw [hstore, storeUpdate_slots_sids, storeUpdate_slots_sids,
        storeUpdate_slots_sids]
    · rw [hstore]
      rfl
    · intro t ht
      rw [hstore, lookupSlot_storeUpdate_other _ _ _ _ ht,
        lookupSlot_storeUpdate_other _ _ _ _ ht,
        lookupSlot_storeUpdate_other _ _ _ _ ht]
    · refine ⟨oF, ?_, i, hobj⟩
      rw [hstore, lookupSlot_storeUpdate_self, lookupSlot_storeUpdate_self,
        lookupSlot_storeUpdate_self, h0]
      rfl

/-- C5 witness: refreshing the known domain with a changed memory size keeps
slot identity 0 and the slot reflects the new memory value. -/
theorem prlsdkLoadDomain_refresh_in_place_witness :
    (∃ o₀, lookupSlot oneSlotStore 0 = some o₀) ∧
    ∃ store' r, prlsdkLoadDomain 2 { fullSnap with ram := some 1024 }
        oneSlotStore (some 0) = (some r, store') ∧ r = 0 ∧
      store'.slots.map (·.sid) = oneSlotStore.slots.map (·.sid) ∧
      ∃ o', lookupSlot store' 0 = some o' ∧
        o'.objDef.memMaxBalloon = 1048576 := by
  refine ⟨⟨_, rfl⟩, _, _, rfl, ?_, ?_, ?_⟩
  · exact (prlsdkLoadDomain_refresh_in_place 2 { fullSnap with ram := some 1024 }
      oneSlotStore _ 0 _ _ rfl rfl).1
  · exact (prlsdkLoadDomain_refresh_in_place 2 { fullSnap with ram := some 1024 }
      oneSlotStore _ 0 _ _ rfl rfl).2.1
  · exact ⟨_, rfl, by decide⟩

/-! ## Claim C4 -/

/-- C4 (code evaluated at the failing input): `getJobResultHelper` releases
the job handle exactly once on every outcome, as the claim demands; but
`prlsdkLoadDomains` violates the claim — on its error path
(parallels_sdk.c:1236) it releases the list job's handle again after the
helper already released it (parallels_sdk.c:174), so at the failing input
where the list job succeeds and `PrlResult_GetParamsCount` fails, the job
handle is released twice across the call path. -/
theorem prlsdkLoadDomains_double_free :
    (∀ jb : JobBehavior, (getJobResultHelper jb).2 = 1) ∧
    (prlsdkLoadDomains 2 paramsCountFailInput emptyStore).2.2 = 2 := by
  constructor
  · intro jb
    unfold getJobResultHelper
    split
    · rfl
    · split
      · rfl
      · split
        · split <;> rfl
        · split <;> rfl
  · rfl

/-! ## Claim C9 -/

/-- C9: `ensure_present` — if the identity is already in the store the slot
is returned unchanged and no external lookup is issued; otherwise a single
lookup by the wire-formatted identity is performed, failing with
`noSuchDomain` when the external system reports none, and on success the
snapshot is reconciled as a fresh discovery (`olddom = none`) and the new
slot is returned. -/
theorem prlsdkAddDomain_spec (hostcpus : Nat) (srv : PrlServer) (store : Store)
    (uuid : List Nat) :
    (∀ sid, virDomainObjListFindByUUID store uuid = some sid →
      prlsdkAddDomain hostcpus srv store uuid = (.ok sid, store, false)) ∧
    (virDomainObjListFindByUUID store uuid = none →
      srv.byId (prlsdkUUIDFormat uuid) = none →
      prlsdkAddDomain hostcpus srv store uuid =
        (.error .noSuchDomain, store, true)) ∧
    (∀ snap, virDomainObjListFindByUUID store uuid = none →
      srv.byId (prlsdkUUIDFormat uuid) = some snap →
      prlsdkAddDomain hostcpus srv store uuid =
        (match prlsdkLoadDomain hostcpus snap store none with
         | (some sid, st') => (.ok sid, st', true)
         | (none, st') => (.error .loadFailed, st', true))) := by
  refine ⟨?_, ?_, ?_⟩
  · intro sid hf
    unfold prlsdkAddDomain
    rw [hf]
  · intro hf hl
    unfold prlsdkAddDomain prlsdkSdkDomainLookupByUUID
    rw [hf, hl]
  · intro snap hf hl
    unfold prlsdkAddDomain prlsdkSdkDomainLookupByUUID
    rw [hf, hl]

/-- C9 witness: a present identity is returned unchanged with no lookup; an
absent identity that the external system does not know yields
`noSuchDomain`. -/
theorem prlsdkAddDomain_spec_witness :
    virDomainObjListFindByUUID oneSlotStore uuidBytes16 = some 0 ∧
    prlsdkAddDomain 2 oneVmServer oneSlotStore uuidBytes16 =
      (.ok 0, oneSlotStore, false) ∧
    prlsdkAddDomain 2 oneVmServer emptyStore (List.replicate 16 0) =
      (.error .noSuchDomain, emptyStore, true) := by
  refine ⟨by decide, ?_, ?_⟩
  · exact (prlsdkAddDomain_spec 2 oneVmServer oneSlotStore uuidBytes16).1 0
      (by decide)
  · exact (prlsdkAddDomain_spec 2 oneVmServer emptyStore
      (List.replicate 16 0)).2.1 (by decide) (by decide)
